import Mathlib

/-!
Verification development for the hypercerts-cli cascading-delete and
backlink-resolution engine. The Go source is shallowly embedded: remote
calls (record get, listing, delete, the remote backlink index, the
confirmation prompt) are modelled as explicit function parameters or
fields of an environment record, and each Go function becomes a pure
Lean function over that environment. Go map-JSON values become the
`JValue` inductive; Go slices become lists.
-/

namespace HC

/-- JSON-like dynamic value, the embedding of the Go type map-of-any as
it is consumed by the backlink scanner: string leaves, objects, arrays,
and a catch-all for every other dynamic value (numbers, booleans, nil),
which the scanner never matches on. -/
inductive JValue where
  | str (s : String)
  | obj (fields : List (String × JValue))
  | arr (elems : List JValue)
  | other
deriving Repr

/-- Embedding of atproto.RecordEntry (part_008): a listed record with its
URI and decoded value. The CID field is omitted: none of the embedded
functions reads it. -/
structure RecordEntry where
  URI : String
  Value : List (String × JValue)
deriving Repr

/-- Collection NSID constant from internal/atproto/collections.go. -/
def CollectionActivity : String := "org.hypercerts.claim.activity"

/-- Collection NSID constant from internal/atproto/collections.go. -/
def CollectionMeasurement : String := "org.hypercerts.claim.measurement"

/-- Collection NSID constant from internal/atproto/collections.go. -/
def CollectionAttachment : String := "org.hypercerts.claim.attachment"

/-- Collection NSID constant from internal/atproto/collections.go. -/
def CollectionEvaluation : String := "org.hypercerts.claim.evaluation"

/-- Embedding of the single-reference match in findLinkedURIs
(part_000, lines 1561 to 1565): the record value holds an object under
key subject whose uri field is a string equal to the target URI. -/
def subjectMatches (value : List (String × JValue)) (targetURI : String) : Bool :=
  match value.lookup "subject" with
  | some (JValue.obj subject) =>
    match subject.lookup "uri" with
    | some (JValue.str subURI) => subURI == targetURI
    | _ => false
  | _ => false

/-- Embedding of the array-reference match in findLinkedURIs
(part_000, lines 1566 to 1576): some element of the subjects array is an
object whose uri field is a string equal to the target URI. -/
def subjectsMatches (value : List (String × JValue)) (targetURI : String) : Bool :=
  match value.lookup "subjects" with
  | some (JValue.arr subjects) =>
    subjects.any fun s =>
      match s with
      | JValue.obj subMap =>
        match subMap.lookup "uri" with
        | some (JValue.str subURI) => subURI == targetURI
        | _ => false
      | _ => false
  | _ => false

/-- Per-entry match decision of findLinkedURIs (part_000, lines 1559 to
1577): branch on the linkField string, exactly as the source does. -/
def entryMatches (linkField targetURI : String) (e : RecordEntry) : Bool :=
  if linkField == "subject" then subjectMatches e.Value targetURI
  else if linkField == "subjects" then subjectsMatches e.Value targetURI
  else false

/-- The scanning loop of findLinkedURIs (part_000, lines 1558 to 1581):
walk the listed entries in order, appending the URI of each entry that
matches. -/
def scanEntries (linkField targetURI : String) : List RecordEntry → List String
  | [] => []
  | e :: rest =>
    if entryMatches linkField targetURI e then
      e.URI :: scanEntries linkField targetURI rest
    else
      scanEntries linkField targetURI rest

/-- Embedding of findLinkedURIs (part_000, lines 1552 to 1583). The
remote listing call ListAllRecords is abstracted as the function
parameter listAll, with none standing for a listing error; on error the
function returns the empty list (fail-soft), otherwise it scans the
entries. -/
def findLinkedURIs (listAll : String → String → Option (List RecordEntry))
    (did collection linkField targetURI : String) : List String :=
  match listAll did collection with
  | none => []
  | some entries => scanEntries linkField targetURI entries

/-- Per-entry match decision of the earlier findLinkedURIs revision
(part_000, lines 1559 to 1577 textually repeat lines 695 to 713);
transcribed separately from lines 695 to 713. -/
def entryMatchesPrev (linkField targetURI : String) (e : RecordEntry) : Bool :=
  if linkField == "subject" then
    match e.Value.lookup "subject" with
    | some (JValue.obj subject) =>
      match subject.lookup "uri" with
      | some (JValue.str subURI) => subURI == targetURI
      | _ => false
    | _ => false
  else if linkField == "subjects" then
    match e.Value.lookup "subjects" with
    | some (JValue.arr subjects) =>
      subjects.any fun s =>
        match s with
        | JValue.obj subMap =>
          match subMap.lookup "uri" with
          | some (JValue.str subURI) => subURI == targetURI
          | _ => false
        | _ => false
    | _ => false
  else false

/-- The scanning loop of the earlier findLinkedURIs revision (part_000,
lines 694 to 717), transcribed separately. -/
def scanEntriesPrev (linkField targetURI : String) : List RecordEntry → List String
  | [] => []
  | e :: rest =>
    if entryMatchesPrev linkField targetURI e then
      e.URI :: scanEntriesPrev linkField targetURI rest
    else
      scanEntriesPrev linkField targetURI rest

/-- Embedding of the earlier findLinkedURIs revision (part_000, lines
688 to 719), transcribed separately from the revision at lines 1552 to
1583 so the two can be compared. -/
def findLinkedURIsPrev (listAll : String → String → Option (List RecordEntry))
    (did collection linkField targetURI : String) : List String :=
  match listAll did collection with
  | none => []
  | some entries => scanEntriesPrev linkField targetURI entries

/-- The two fields of an indigo syntax.ATURI that deleteActivity reads:
Collection() and RecordKey(). -/
structure ATURI where
  collection : String
  rkey : String
deriving DecidableEq, Repr

/-- One DeleteRecord call issued to the repository, identified by the
did, collection and record key arguments it was given. -/
structure DeleteCall where
  did : String
  collection : String
  rkey : String
deriving DecidableEq, Repr

/-- Error outcomes of deleteActivity (part_000): invalid root URI, root
record not found on the initial get, or failure of the final root
DeleteRecord call; dependent-delete failures are warnings, not errors. -/
inductive DelError where
  | invalidURI
  | notFound
  | rootDeleteFailed
deriving DecidableEq, Repr

/-- Observable outcome of one deleteActivity run: the DeleteRecord calls
issued in order, the number of dependent-delete warnings printed,
whether the run printed Aborted after a declined confirmation, and the
returned error if any (none is a nil return). -/
structure DeleteRun where
  trace : List DeleteCall
  warnings : Nat
  aborted : Bool
  result : Option DelError
deriving DecidableEq, Repr

/-- Environment of one deleteActivity run: the external collaborators it
calls, each modelled as a function. parseATURI embeds the indigo URI
parser (none is a parse error); getRecordOK tells whether the initial
GetRecord succeeds; listAll backs findLinkedURIs; deleteOK tells whether
a DeleteRecord call succeeds; confirmAnswer is the operator reply to the
Proceed prompt. -/
structure Env where
  parseATURI : String → Option ATURI
  getRecordOK : String → String → String → Bool
  listAll : String → String → Option (List RecordEntry)
  deleteOK : String → String → String → Bool
  confirmAnswer : Bool

/-- One dependent-deletion loop of deleteActivity (part_000, lines 1507
to 1537, one loop per dependent collection): for each URI in order,
parse it — on parse failure continue to the next — then issue the
DeleteRecord call, counting a warning when the call fails. Returns the
calls issued in order and the warning count. -/
def deleteDependents (env : Env) (did : String) : List String → List DeleteCall × Nat
  | [] => ([], 0)
  | u :: rest =>
    match env.parseATURI u with
    | none => deleteDependents env did rest
    | some aturi =>
      let w : Nat := if env.deleteOK did aturi.collection aturi.rkey then 0 else 1
      let r := deleteDependents env did rest
      (⟨did, aturi.collection, aturi.rkey⟩ :: r.1, w + r.2)

/-- The deletion phase of deleteActivity (part_000, lines 1506 to 1550):
delete attachments, then measurements, then evaluations, then the root;
dependent failures are warnings, root failure is a returned error. -/
def cascadePhase (env : Env) (did : String) (aturi : ATURI)
    (attachmentURIs measurementURIs evaluationURIs : List String) : DeleteRun :=
  let att := deleteDependents env did attachmentURIs
  let m := deleteDependents env did measurementURIs
  let e := deleteDependents env did evaluationURIs
  let rootCall : DeleteCall := ⟨did, aturi.collection, aturi.rkey⟩
  let trace := att.1 ++ m.1 ++ e.1 ++ [rootCall]
  let warns := att.2 + m.2 + e.2
  if env.deleteOK did aturi.collection aturi.rkey then
    ⟨trace, warns, false, none⟩
  else
    ⟨trace, warns, false, some DelError.rootDeleteFailed⟩

/-- The measurement discovery call of deleteActivity (part_000, line
1483): single-reference scan of the measurement collection. -/
def measurementURIs (env : Env) (did uri : String) : List String :=
  findLinkedURIs env.listAll did CollectionMeasurement "subject" uri

/-- The attachment discovery call of deleteActivity (part_000, line
1484): array-reference scan of the attachment collection. -/
def attachmentURIs (env : Env) (did uri : String) : List String :=
  findLinkedURIs env.listAll did CollectionAttachment "subjects" uri

/-- The evaluation discovery call of deleteActivity (part_000, line
1485): single-reference scan of the evaluation collection. -/
def evaluationURIs (env : Env) (did uri : String) : List String :=
  findLinkedURIs env.listAll did CollectionEvaluation "subject" uri

/-- The totalLinked count of deleteActivity (part_000, line 1487). -/
def totalLinked (env : Env) (did uri : String) : Nat :=
  (measurementURIs env did uri).length + (attachmentURIs env did uri).length +
    (evaluationURIs env did uri).length

/-- Embedding of deleteActivity (part_000, lines 1469 to 1550): parse
the root URI, verify the root exists, discover the three dependent URI
lists, gate on confirmation when not forced and dependents exist, then
run the deletion phase. -/
def deleteActivity (env : Env) (did uri : String) (force : Bool) : DeleteRun :=
  match env.parseATURI uri with
  | none => ⟨[], 0, false, some DelError.invalidURI⟩
  | some aturi =>
    if env.getRecordOK did aturi.collection aturi.rkey then
      if !force && totalLinked env did uri > 0 then
        if env.confirmAnswer then
          cascadePhase env did aturi (attachmentURIs env did uri)
            (measurementURIs env did uri) (evaluationURIs env did uri)
        else
          ⟨[], 0, true, none⟩
      else
        cascadePhase env did aturi (attachmentURIs env did uri)
          (measurementURIs env did uri) (evaluationURIs env did uri)
    else
      ⟨[], 0, false, some DelError.notFound⟩

/-- The prefix test of resolveRecordURI, the embedding of the Go call
strings.HasPrefix(idOrURI, at scheme): character-list prefix comparison,
equivalent to byte prefix comparison on UTF-8 strings. -/
def hasATPrefix (idOrURI : String) : Bool :=
  "at://".data.isPrefixOf idOrURI.data

/-- Embedding of resolveRecordURI (cmd/util.go, lines 70 to 75): pass a
full at URI through unchanged, otherwise assemble one from the did,
collection and key. -/
def resolveRecordURI (did collection idOrURI : String) : String :=
  if hasATPrefix idOrURI then idOrURI
  else "at://" ++ did ++ "/" ++ collection ++ "/" ++ idOrURI

/-- Observable outcome of one confirmation call: the boolean it returns
and whether it printed a prompt and read operator input. -/
structure ConfirmOutcome where
  result : Bool
  prompted : Bool
deriving DecidableEq, Repr

/-- The answer normalisation shared by the text confirmation prompts
(internal/menu and internal/atproto/constellation.go confirmText): lower
the case, trim surrounding whitespace, accept y or yes. -/
def answerIsYes (input : String) : Bool :=
  let t := input.toLower.trim
  t == "y" || t == "yes"

/-- Embedding of the menu package ConfirmBulkDelete
(internal/atproto/constellation.go, lines 217 to 231): a count of at
most one auto-confirms before any prompt is printed or input read;
otherwise print the prompt and read a line, where none models a read
error (returns false). The count is an Int, as in the Go source. -/
def ConfirmBulkDelete (count : Int) (readLine : Option String) : ConfirmOutcome :=
  if count ≤ 1 then ⟨true, false⟩
  else
    match readLine with
    | none => ⟨false, true⟩
    | some input => ⟨answerIsYes input, true⟩

/-- Embedding of the widget-based ConfirmBulkDelete revision
(internal/atproto/constellation.go, lines 162 to 183): the same early
auto-confirm for a count of at most one; past it, a non-terminal stdin
falls back to the text prompt, and a terminal runs the confirm widget,
whose outcome is modelled by widgetAnswer (none is a widget error,
returning false). -/
def ConfirmBulkDeleteTTY (isTerminal : Bool) (count : Int)
    (widgetAnswer : Option Bool) (readLine : Option String) : ConfirmOutcome :=
  if count ≤ 1 then ⟨true, false⟩
  else if !isTerminal then
    match readLine with
    | none => ⟨false, true⟩
    | some input => ⟨answerIsYes input, true⟩
  else
    match widgetAnswer with
    | none => ⟨false, true⟩
    | some yes => ⟨yes, true⟩

/-- Embedding of the bulk branch of runActivityDelete (part_000, lines
1453 to 1462): after the multi-select, gate the whole batch on one
ConfirmBulkDelete call over the number of selected roots; if declined,
print Aborted and stop (modelled as none); otherwise call deleteActivity
once per selected root with force set to true, in selection order. -/
def runActivityDeleteBulk (env : Env) (did : String) (selected : List String)
    (readLine : Option String) : Option (List DeleteRun) :=
  if !(ConfirmBulkDelete (Int.ofNat selected.length) readLine).result then none
  else some (selected.map fun uri => deleteActivity env did uri true)

/-- Embedding of atproto.LinkingRecord (internal/atproto/constellation.go):
one remote backlink index result row. -/
structure LinkingRecord where
  DID : String
  Collection : String
  Rkey : String
deriving DecidableEq, Repr

/-- Embedding of the attachment branch of runActivityGet (part_000,
lines 1776 to 1782): query the remote backlink index for the attachment
collection with the array-reference field path; only when that call
returns an error (none) is the single-reference field path queried as a
fallback. The remote call GetAllBacklinkRecords is abstracted as the
function parameter query, from field path to result, with none standing
for an error. -/
def attachmentBacklinks (query : String → Option (List LinkingRecord)) :
    Option (List LinkingRecord) :=
  match query ".subjects[].uri" with
  | some records => some records
  | none => query ".subject.uri"

/-- Helper for theorem statements: the DeleteRecord call deleteActivity
issues for one dependent URI, none when the URI fails to parse and the
dependent is skipped by the continue branch. -/
def toCall (env : Env) (did : String) (u : String) : Option DeleteCall :=
  (env.parseATURI u).map fun a => ⟨did, a.collection, a.rkey⟩

/-- Sample owner identity used by the concrete evaluations below. -/
def did0 : String := "did:plc:alice"

/-- Sample activity root URI used by the concrete evaluations below. -/
def rootURI0 : String := "at://did:plc:alice/org.hypercerts.claim.activity/root1"

/-- Sample measurement URI referencing the sample root. -/
def mURI0 : String := "at://did:plc:alice/org.hypercerts.claim.measurement/m1"

/-- Sample URI parser recognising the sample root and sample
measurement, rejecting everything else. -/
def sampleParse : String → Option ATURI := fun s =>
  if s == rootURI0 then some ⟨CollectionActivity, "root1"⟩
  else if s == mURI0 then some ⟨CollectionMeasurement, "m1"⟩
  else none

/-- Sample measurement entry whose subject field references the sample
root by URI. -/
def mEntry0 : RecordEntry :=
  ⟨mURI0, [("subject", JValue.obj [("uri", JValue.str rootURI0)])]⟩

/-- Listing function with one measurement referencing the sample root
and empty attachment and evaluation collections. -/
def listAllOneMeasurement : String → String → Option (List RecordEntry) := fun _ coll =>
  if coll == CollectionMeasurement then some [mEntry0] else some []

/-- Listing function that always fails. -/
def failListAll : String → String → Option (List RecordEntry) := fun _ _ => none

/-- Environment exhibiting a discovered attachment dependent whose URI
does not parse: the attachment listing returns one matching entry with
URI bad-uri, which the sample parser rejects, so its delete is skipped
while the root delete still runs. -/
def envC1 : Env where
  parseATURI := sampleParse
  getRecordOK := fun _ _ _ => true
  listAll := fun _ coll =>
    if coll == CollectionAttachment then
      some [⟨"bad-uri", [("subjects", JValue.arr [JValue.obj [("uri", JValue.str rootURI0)]])]⟩]
    else some []
  deleteOK := fun _ _ _ => true
  confirmAnswer := true

/-- Environment with one linked measurement and an operator who declines
the confirmation prompt. -/
def envC2 : Env where
  parseATURI := sampleParse
  getRecordOK := fun _ _ _ => true
  listAll := listAllOneMeasurement
  deleteOK := fun _ _ _ => true
  confirmAnswer := false

/-- Environment in which every record get fails, so the root existence
check reports not found. -/
def envC3 : Env where
  parseATURI := sampleParse
  getRecordOK := fun _ _ _ => false
  listAll := listAllOneMeasurement
  deleteOK := fun _ _ _ => true
  confirmAnswer := true

/-- Environment with one linked measurement whose delete fails while the
root delete succeeds. -/
def envC4 : Env where
  parseATURI := sampleParse
  getRecordOK := fun _ _ _ => true
  listAll := listAllOneMeasurement
  deleteOK := fun _ coll rkey => !(coll == CollectionMeasurement && rkey == "m1")
  confirmAnswer := true

/-- The environment envC4 with every delete succeeding, used to show
the attempted-delete trace does not depend on delete outcomes. -/
def envC4all : Env where
  parseATURI := sampleParse
  getRecordOK := fun _ _ _ => true
  listAll := listAllOneMeasurement
  deleteOK := fun _ _ _ => true
  confirmAnswer := true

/-- Sample entries for the backlink scanner correctness witness: three
records, the first and third referencing the target at://t through
their subject field. -/
def entriesC5 : List RecordEntry :=
  [⟨"at://r1", [("subject", JValue.obj [("uri", JValue.str "at://t")])]⟩,
   ⟨"at://r2", [("subject", JValue.obj [("uri", JValue.str "at://other")])]⟩,
   ⟨"at://r3", [("subject", JValue.obj [("uri", JValue.str "at://t")])]⟩]

/-- Sample listing serving entriesC5 under collection col. -/
def listAllC5 : String → String → Option (List RecordEntry) := fun _ coll =>
  if coll == "col" then some entriesC5 else none

/-- Environment whose collaborators all fail or refuse, used where the
run under scrutiny never consults them. -/
def envTriv : Env where
  parseATURI := fun _ => none
  getRecordOK := fun _ _ _ => false
  listAll := fun _ _ => none
  deleteOK := fun _ _ _ => false
  confirmAnswer := false

/-- Remote backlink query whose array-reference answer is a successful
empty list while the single-reference answer is nonempty; exhibits that
a successful empty first query does not trigger the fallback. -/
def q7 : String → Option (List LinkingRecord) := fun p =>
  if p == ".subjects[].uri" then some []
  else some [⟨"did:plc:other", CollectionAttachment, "att1"⟩]

/-- Remote backlink query whose array-reference answer errors and whose
single-reference answer succeeds, used to exercise the fallback. -/
def q7err : String → Option (List LinkingRecord) := fun p =>
  if p == ".subjects[].uri" then none
  else some [⟨"did:plc:other", CollectionAttachment, "att2"⟩]

/-- Remote backlink query answering every path with the same one-row
success, used to exercise the no-fallback branch at a nonempty list. -/
def q7ok : String → Option (List LinkingRecord) := fun _ =>
  some [⟨"did:plc:other", CollectionAttachment, "att3"⟩]

/-- The scanning loop returns exactly the URIs of the matching entries,
in listing order. -/
theorem scanEntries_eq (linkField targetURI : String) (l : List RecordEntry) :
    scanEntries linkField targetURI l =
      (l.filter (entryMatches linkField targetURI)).map RecordEntry.URI := by
  induction l with
  | nil => rfl
  | cons e rest ih =>
    cases h : entryMatches linkField targetURI e <;>
      simp [scanEntries, List.filter_cons, h, ih]

/-- The calls issued by one dependent-deletion loop are exactly the
parseable dependent URIs mapped to their delete calls, in order. -/
theorem deleteDependents_fst (env : Env) (did : String) (us : List String) :
    (deleteDependents env did us).1 = us.filterMap (toCall env did) := by
  induction us with
  | nil => rfl
  | cons u rest ih =>
    cases h : env.parseATURI u <;>
      simp [deleteDependents, List.filterMap_cons, toCall, h, ih]

/-- The trace of the deletion phase: attachment calls, then measurement
calls, then evaluation calls, then the root call, independently of which
delete calls succeed. -/
theorem cascadePhase_trace (env : Env) (did : String) (aturi : ATURI)
    (a m e : List String) :
    (cascadePhase env did aturi a m e).trace =
      (deleteDependents env did a).1 ++ (deleteDependents env did m).1 ++
        (deleteDependents env did e).1 ++ [⟨did, aturi.collection, aturi.rkey⟩] := by
  cases h : env.deleteOK did aturi.collection aturi.rkey <;>
    simp [cascadePhase, h, List.append_assoc]

/-- The deletion phase returns an error exactly when the root delete
call fails. -/
theorem cascadePhase_result (env : Env) (did : String) (aturi : ATURI)
    (a m e : List String) :
    (cascadePhase env did aturi a m e).result =
      if env.deleteOK did aturi.collection aturi.rkey then none
      else some DelError.rootDeleteFailed := by
  cases h : env.deleteOK did aturi.collection aturi.rkey <;>
    simp [cascadePhase, h]

/-- Under a parseable root, a successful existence check, and a passed
confirmation gate, deleteActivity runs the deletion phase on the three
discovered dependent lists. -/
theorem deleteActivity_phase (env : Env) (did uri : String) (force : Bool) (aturi : ATURI)
    (hp : env.parseATURI uri = some aturi)
    (hg : env.getRecordOK did aturi.collection aturi.rkey = true)
    (hreach : force = true ∨ totalLinked env did uri = 0 ∨ env.confirmAnswer = true) :
    deleteActivity env did uri force =
      cascadePhase env did aturi (attachmentURIs env did uri)
        (measurementURIs env did uri) (evaluationURIs env did uri) := by
  unfold deleteActivity
  rw [hp]
  rcases hreach with h | h | h
  · subst h
    simp [hg]
  · simp [hg, h]
  · cases hc : (!force && decide (totalLinked env did uri > 0)) <;> simp [hg, h, hc]

/-- The trace of any run that reaches the deletion phase: parseable
attachments first, then parseable measurements, then parseable
evaluations, then the root call last. -/
theorem deleteActivity_trace_char (env : Env) (did uri : String) (force : Bool) (aturi : ATURI)
    (hp : env.parseATURI uri = some aturi)
    (hg : env.getRecordOK did aturi.collection aturi.rkey = true)
    (hreach : force = true ∨ totalLinked env did uri = 0 ∨ env.confirmAnswer = true) :
    (deleteActivity env did uri force).trace =
      (attachmentURIs env did uri).filterMap (toCall env did) ++
        (measurementURIs env did uri).filterMap (toCall env did) ++
        (evaluationURIs env did uri).filterMap (toCall env did) ++
        [⟨did, aturi.collection, aturi.rkey⟩] := by
  rw [deleteActivity_phase env did uri force aturi hp hg hreach, cascadePhase_trace,
    deleteDependents_fst, deleteDependents_fst, deleteDependents_fst]

/-- Helper for theorem statements: among the delete calls deleteActivity
issues for a dependent URI list, the number whose DeleteRecord call
fails, that is, the number of warnings the loop prints. -/
def failedCalls (env : Env) (did : String) (us : List String) : Nat :=
  ((us.filterMap (toCall env did)).filter fun c =>
    !env.deleteOK c.did c.collection c.rkey).length

/-- The warning count of one dependent-deletion loop is the number of
issued calls that fail. -/
theorem deleteDependents_snd (env : Env) (did : String) (us : List String) :
    (deleteDependents env did us).2 = failedCalls env did us := by
  induction us with
  | nil => rfl
  | cons u rest ih =>
    cases h : env.parseATURI u with
    | none => simp [deleteDependents, failedCalls, List.filterMap_cons, toCall, h] at ih ⊢; exact ih
    | some a =>
      cases hd : env.deleteOK did a.collection a.rkey <;>
        simp [deleteDependents, failedCalls, List.filterMap_cons, List.filter_cons, toCall,
          h, hd] at ih ⊢ <;> omega

/-- The warning count of the deletion phase is the sum of the three
loops, independently of the root delete outcome. -/
theorem cascadePhase_warnings (env : Env) (did : String) (aturi : ATURI)
    (a m e : List String) :
    (cascadePhase env did aturi a m e).warnings =
      (deleteDependents env did a).2 + (deleteDependents env did m).2 +
        (deleteDependents env did e).2 := by
  cases h : env.deleteOK did aturi.collection aturi.rkey <;> simp [cascadePhase, h]

/-- The three discovery lists and the linked total depend only on the
listing function. -/
theorem totalLinked_congr (env2 env : Env) (h : env2.listAll = env.listAll)
    (did uri : String) : totalLinked env2 did uri = totalLinked env did uri := by
  simp [totalLinked, measurementURIs, attachmentURIs, evaluationURIs, h]

/-- The dependent delete-call builder depends only on the URI parser. -/
theorem toCall_congr (env2 env : Env) (h : env2.parseATURI = env.parseATURI) :
    toCall env2 = toCall env := by
  funext d u
  simp [toCall, h]

/-- C1 counterexample: the attachment scan of envC1 discovers the
dependent bad-uri, whose URI does not parse; the run still deletes the
root, and no delete call for that discovered dependent is ever issued,
so the root delete is attempted although a discovered dependent never
had its delete attempted. -/
theorem C1_counterexample :
    attachmentURIs envC1 did0 rootURI0 = ["bad-uri"] ∧
    (deleteActivity envC1 did0 rootURI0 true).trace =
      [⟨did0, CollectionActivity, "root1"⟩] ∧
    (∀ c ∈ (deleteActivity envC1 did0 rootURI0 true).trace,
      c.collection ≠ CollectionAttachment) := by
  refine ⟨by decide, by decide, ?_⟩
  decide

/-- C1, amended: for every run reaching the deletion phase, the delete
calls are issued in the order all discovered attachments, then all
discovered measurements, then all discovered evaluations, then the root
strictly last — where for each discovered dependent whose URI parses a
delete call is issued before the root, and dependents whose URIs fail to
parse are silently skipped. -/
theorem C1_deletion_order (env : Env) (did uri : String) (force : Bool) (aturi : ATURI)
    (hp : env.parseATURI uri = some aturi)
    (hg : env.getRecordOK did aturi.collection aturi.rkey = true)
    (hreach : force = true ∨ totalLinked env did uri = 0 ∨ env.confirmAnswer = true) :
    (deleteActivity env did uri force).trace =
      (attachmentURIs env did uri).filterMap (toCall env did) ++
        (measurementURIs env did uri).filterMap (toCall env did) ++
        (evaluationURIs env did uri).filterMap (toCall env did) ++
        [⟨did, aturi.collection, aturi.rkey⟩] :=
  deleteActivity_trace_char env did uri force aturi hp hg hreach

/-- C1 witness: a concrete forced run with one linked measurement issues
exactly the measurement delete followed by the root delete. -/
theorem C1_deletion_order_witness :
    (deleteActivity envC4all did0 rootURI0 true).trace =
      [⟨did0, CollectionMeasurement, "m1"⟩, ⟨did0, CollectionActivity, "root1"⟩] := by
  rw [C1_deletion_order envC4all did0 rootURI0 true ⟨CollectionActivity, "root1"⟩
    (by decide) (by decide) (Or.inl rfl)]
  decide

/-- C2: with force off, at least one discovered dependent, and the
operator declining the prompt, deleteActivity issues no delete call,
prints no warning, marks the run aborted, and returns without error. -/
theorem C2_decline_no_side_effects (env : Env) (did uri : String) (aturi : ATURI)
    (hp : env.parseATURI uri = some aturi)
    (hg : env.getRecordOK did aturi.collection aturi.rkey = true)
    (hdep : 0 < totalLinked env did uri)
    (hconf : env.confirmAnswer = false) :
    deleteActivity env did uri false = ⟨[], 0, true, none⟩ := by
  unfold deleteActivity
  rw [hp]
  simp [hg, hdep, hconf]

/-- C2 witness: the concrete declined run over one linked measurement
deletes nothing and returns without error. -/
theorem C2_decline_no_side_effects_witness :
    deleteActivity envC2 did0 rootURI0 false = ⟨[], 0, true, none⟩ :=
  C2_decline_no_side_effects envC2 did0 rootURI0 ⟨CollectionActivity, "root1"⟩
    (by decide) (by decide) (by decide) (by decide)

/-- C3: when the initial get of the root fails, deleteActivity returns
the not-found error and issues no delete call at all, whatever the force
flag. -/
theorem C3_missing_root_no_deletions (env : Env) (did uri : String) (force : Bool)
    (aturi : ATURI)
    (hp : env.parseATURI uri = some aturi)
    (hg : env.getRecordOK did aturi.collection aturi.rkey = false) :
    deleteActivity env did uri force = ⟨[], 0, false, some DelError.notFound⟩ := by
  unfold deleteActivity
  rw [hp]
  simp [hg]

/-- C3 witness: the concrete run against an environment whose gets all
fail returns not-found with an empty trace. -/
theorem C3_missing_root_no_deletions_witness :
    deleteActivity envC3 did0 rootURI0 false = ⟨[], 0, false, some DelError.notFound⟩ :=
  C3_missing_root_no_deletions envC3 did0 rootURI0 false ⟨CollectionActivity, "root1"⟩
    (by decide) (by decide)

/-- C4: in every run reaching the deletion phase, the root delete call
is the last entry of the trace; the trace does not depend on which
delete calls succeed, so a dependent delete failure never stops the
cascade; each failed dependent delete is counted as one warning; and the
run returns an error exactly when the root delete itself fails. -/
theorem C4_partial_failure_policy (env : Env) (did uri : String) (force : Bool)
    (aturi : ATURI)
    (hp : env.parseATURI uri = some aturi)
    (hg : env.getRecordOK did aturi.collection aturi.rkey = true)
    (hreach : force = true ∨ totalLinked env did uri = 0 ∨ env.confirmAnswer = true) :
    (deleteActivity env did uri force).trace.getLast? =
        some ⟨did, aturi.collection, aturi.rkey⟩ ∧
    (∀ env2 : Env, env2.parseATURI = env.parseATURI →
      env2.getRecordOK = env.getRecordOK → env2.listAll = env.listAll →
      env2.confirmAnswer = env.confirmAnswer →
      (deleteActivity env2 did uri force).trace = (deleteActivity env did uri force).trace) ∧
    (deleteActivity env did uri force).warnings =
      failedCalls env did (attachmentURIs env did uri) +
        failedCalls env did (measurementURIs env did uri) +
        failedCalls env did (evaluationURIs env did uri) ∧
    (deleteActivity env did uri force).result =
      (if env.deleteOK did aturi.collection aturi.rkey then none
       else some DelError.rootDeleteFailed) := by
  refine ⟨?_, ?_, ?_, ?_⟩
  · rw [deleteActivity_trace_char env did uri force aturi hp hg hreach,
      List.getLast?_concat]
  · intro env2 hparse hget hlist hconf
    have hp2 : env2.parseATURI uri = some aturi := by rw [hparse]; exact hp
    have hg2 : env2.getRecordOK did aturi.collection aturi.rkey = true := by
      rw [hget]; exact hg
    have hreach2 : force = true ∨ totalLinked env2 did uri = 0 ∨
        env2.confirmAnswer = true := by
      rcases hreach with h | h | h
      · exact Or.inl h
      · exact Or.inr (Or.inl (by rw [totalLinked_congr env2 env hlist, h]))
      · exact Or.inr (Or.inr (by rw [hconf]; exact h))
    rw [deleteActivity_trace_char env2 did uri force aturi hp2 hg2 hreach2,
      deleteActivity_trace_char env did uri force aturi hp hg hreach,
      toCall_congr env2 env hparse]
    simp [attachmentURIs, measurementURIs, evaluationURIs, hlist]
  · rw [deleteActivity_phase env did uri force aturi hp hg hreach, cascadePhase_warnings,
      deleteDependents_snd, deleteDependents_snd, deleteDependents_snd]
  · rw [deleteActivity_phase env did uri force aturi hp hg hreach, cascadePhase_result]

/-- C4 witness: in a concrete forced run where the one linked
measurement fails to delete while the root delete succeeds, the root
call is still issued last, the trace equals that of the same run with
all deletes succeeding, exactly one warning is counted, and the run
returns without error. -/
theorem C4_partial_failure_policy_witness :
    (deleteActivity envC4 did0 rootURI0 true).trace.getLast? =
        some ⟨did0, CollectionActivity, "root1"⟩ ∧
    (deleteActivity envC4all did0 rootURI0 true).trace =
        (deleteActivity envC4 did0 rootURI0 true).trace ∧
    (deleteActivity envC4 did0 rootURI0 true).warnings = 1 ∧
    (deleteActivity envC4 did0 rootURI0 true).result = none := by
  have h := C4_partial_failure_policy envC4 did0 rootURI0 true
    ⟨CollectionActivity, "root1"⟩ (by decide) (by decide) (Or.inl rfl)
  refine ⟨h.1, h.2.1 envC4all rfl rfl rfl rfl, ?_, ?_⟩
  · rw [h.2.2.1]; decide
  · rw [h.2.2.2]; decide

/-- C5: when the listing succeeds and its records carry pairwise
distinct URIs, the scanner returns exactly the URIs of the K matching
records, in listing order, each belonging to a matching record, with no
duplicates. -/
theorem C5_findLinkedURIs_correct
    (listAll : String → String → Option (List RecordEntry))
    (did collection linkField targetURI : String)
    (entries : List RecordEntry) (K : Nat)
    (hlist : listAll did collection = some entries)
    (hnodup : (entries.map RecordEntry.URI).Nodup)
    (hK : (entries.filter (entryMatches linkField targetURI)).length = K) :
    findLinkedURIs listAll did collection linkField targetURI =
      (entries.filter (entryMatches linkField targetURI)).map RecordEntry.URI ∧
    (findLinkedURIs listAll did collection linkField targetURI).length = K ∧
    (∀ u ∈ findLinkedURIs listAll did collection linkField targetURI,
      ∃ e ∈ entries, entryMatches linkField targetURI e = true ∧ e.URI = u) ∧
    (findLinkedURIs listAll did collection linkField targetURI).Nodup := by
  have hres : findLinkedURIs listAll did collection linkField targetURI =
      (entries.filter (entryMatches linkField targetURI)).map RecordEntry.URI := by
    simp [findLinkedURIs, hlist, scanEntries_eq]
  refine ⟨hres, ?_, ?_, ?_⟩
  · rw [hres, List.length_map, hK]
  · intro u hu
    rw [hres] at hu
    obtain ⟨e, he, rfl⟩ := List.mem_map.mp hu
    exact ⟨e, List.mem_of_mem_filter he, List.of_mem_filter he, rfl⟩
  · rw [hres]
    exact hnodup.sublist (List.Sublist.map RecordEntry.URI (List.filter_sublist entries))

/-- C5 witness: on the concrete three-record listing with two matches
the scanner returns the two matching URIs in listing order. -/
theorem C5_findLinkedURIs_correct_witness :
    findLinkedURIs listAllC5 did0 "col" "subject" "at://t" = ["at://r1", "at://r3"] ∧
    (findLinkedURIs listAllC5 did0 "col" "subject" "at://t").length = 2 := by
  have h := C5_findLinkedURIs_correct listAllC5 did0 "col" "subject" "at://t"
    entriesC5 2 (by rfl) (by decide) (by decide)
  refine ⟨?_, h.2.1⟩
  rw [h.1]
  decide

/-- C6: a failed collection listing makes the scanner return the empty
list rather than an error. -/
theorem C6_fail_soft (listAll : String → String → Option (List RecordEntry))
    (did collection linkField targetURI : String)
    (h : listAll did collection = none) :
    findLinkedURIs listAll did collection linkField targetURI = [] := by
  simp [findLinkedURIs, h]

/-- C6 witness: the scanner over the always-failing listing returns the
empty list. -/
theorem C6_fail_soft_witness :
    findLinkedURIs failListAll did0 CollectionMeasurement "subject" rootURI0 = [] :=
  C6_fail_soft failListAll did0 CollectionMeasurement "subject" rootURI0 rfl

/-- C7 counterexample: over the query q7 the array-reference call
succeeds with an empty list and the single-reference answer is nonempty,
yet the assembled result is the empty success, not the fallback answer:
a successful empty first query does not trigger the fallback. -/
theorem C7_counterexample :
    q7 ".subjects[].uri" = some [] ∧
    q7 ".subject.uri" = some [⟨"did:plc:other", CollectionAttachment, "att1"⟩] ∧
    attachmentBacklinks q7 = some [] ∧
    attachmentBacklinks q7 ≠ q7 ".subject.uri" := by
  refine ⟨by decide, by decide, by decide, by decide⟩

/-- C7, amended: the attachment category queries the array-reference
field path first and uses the single-reference field path as a fallback
exactly when the first query returns an error; a successful first query,
even one returning an empty list, is used as-is. -/
theorem C7_fallback_on_error_only :
    (∀ (query : String → Option (List LinkingRecord)) (l : List LinkingRecord),
      query ".subjects[].uri" = some l → attachmentBacklinks query = some l) ∧
    (∀ query : String → Option (List LinkingRecord),
      query ".subjects[].uri" = none →
        attachmentBacklinks query = query ".subject.uri") := by
  constructor
  · intro query l h
    simp [attachmentBacklinks, h]
  · intro query h
    simp [attachmentBacklinks, h]

/-- C7 witness: a successful nonempty first query is returned as-is, and
an erroring first query falls back to the single-reference answer. -/
theorem C7_fallback_on_error_only_witness :
    attachmentBacklinks q7ok = some [⟨"did:plc:other", CollectionAttachment, "att3"⟩] ∧
    attachmentBacklinks q7err = some [⟨"did:plc:other", CollectionAttachment, "att2"⟩] := by
  constructor
  · exact C7_fallback_on_error_only.1 q7ok _ rfl
  · rw [C7_fallback_on_error_only.2 q7err rfl]
    decide

/-- C8: an input that already begins with the at scheme passes through
resolveRecordURI unchanged, whatever the did and collection. -/
theorem C8_resolveRecordURI_idempotent (did collection s : String)
    (h : hasATPrefix s = true) :
    resolveRecordURI did collection s = s := by
  simp [resolveRecordURI, h]

/-- C8 witness: a concrete full record URI is returned unchanged. -/
theorem C8_resolveRecordURI_idempotent_witness :
    resolveRecordURI did0 CollectionMeasurement rootURI0 = rootURI0 :=
  C8_resolveRecordURI_idempotent did0 CollectionMeasurement rootURI0 (by decide)

/-- C9: every count of at most one auto-confirms bulk deletion with no
prompt in both ConfirmBulkDelete revisions, and the bulk branch of
runActivityDelete on at most one selected root proceeds straight to
per-root deleteActivity calls with force set. -/
theorem C9_confirmBulkDelete_auto :
    (∀ (count : Int) (rl : Option String), count ≤ 1 →
      ConfirmBulkDelete count rl = ⟨true, false⟩) ∧
    (∀ (isTerminal : Bool) (count : Int) (wa : Option Bool) (rl : Option String),
      count ≤ 1 → ConfirmBulkDeleteTTY isTerminal count wa rl = ⟨true, false⟩) ∧
    (∀ (env : Env) (did : String) (selected : List String) (rl : Option String),
      selected.length ≤ 1 →
      runActivityDeleteBulk env did selected rl =
        some (selected.map fun uri => deleteActivity env did uri true)) := by
  refine ⟨?_, ?_, ?_⟩
  · intro count rl h
    simp [ConfirmBulkDelete, h]
  · intro isTerminal count wa rl h
    simp [ConfirmBulkDeleteTTY, h]
  · intro env did selected rl h
    have h1 : (Int.ofNat selected.length) ≤ 1 := Int.ofNat_le.mpr h
    simp [runActivityDeleteBulk, ConfirmBulkDelete, h1, h]

/-- C9 witness: count one auto-confirms in both revisions, and a
one-element selection proceeds to a forced deleteActivity call. -/
theorem C9_confirmBulkDelete_auto_witness :
    ConfirmBulkDelete 1 none = ⟨true, false⟩ ∧
    ConfirmBulkDeleteTTY true 1 none none = ⟨true, false⟩ ∧
    runActivityDeleteBulk envTriv did0 [rootURI0] none =
      some [deleteActivity envTriv did0 rootURI0 true] := by
  refine ⟨C9_confirmBulkDelete_auto.1 1 none (by decide),
    C9_confirmBulkDelete_auto.2.1 true 1 none none (by decide), ?_⟩
  rw [C9_confirmBulkDelete_auto.2.2 envTriv did0 [rootURI0] none (by decide)]
  rfl

/-- The two per-entry match decisions of the two findLinkedURIs
revisions agree. -/
theorem entryMatchesPrev_eq (linkField targetURI : String) (e : RecordEntry) :
    entryMatchesPrev linkField targetURI e = entryMatches linkField targetURI e := by
  simp [entryMatchesPrev, entryMatches, subjectMatches, subjectsMatches]

/-- The two scanning loops of the two findLinkedURIs revisions agree. -/
theorem scanEntriesPrev_eq (linkField targetURI : String) (l : List RecordEntry) :
    scanEntriesPrev linkField targetURI l = scanEntries linkField targetURI l := by
  induction l with
  | nil => rfl
  | cons e rest ih =>
    rw [scanEntriesPrev, scanEntries, entryMatchesPrev_eq, ih]

/-- C10: the findLinkedURIs revision at lines 688 to 719 and the one at
lines 1552 to 1583 are extensionally equal: on every listing function,
owner, collection, field path and target they return the same list. -/
theorem C10_revisions_equal
    (listAll : String → String → Option (List RecordEntry))
    (did collection linkField targetURI : String) :
    findLinkedURIsPrev listAll did collection linkField targetURI =
      findLinkedURIs listAll did collection linkField targetURI := by
  unfold findLinkedURIsPrev findLinkedURIs
  cases listAll did collection with
  | none => rfl
  | some entries => exact scanEntriesPrev_eq linkField targetURI entries

end HC
